import Mathlib

/-!
Shallow embedding of the beam-search state-selection core of thoth-adviser:
the AdaptiveSimulatedAnnealing predictor (thoth/adviser/predictors/annealing.py)
and the DropoutStep pipeline step (thoth/adviser/steps/dropout.py).

Python floats are modelled by exact reals; the random draws consumed by a call
(the randrange pick of a neighbour rank and the uniform draw from the unit
interval) are passed as explicit arguments, so a fixed seed corresponds to a
fixed sequence of draws.
-/

namespace ThothAdviser

/-- Modelled from the spec: the recommendation-type enumeration
(enums.py is not part of the sources; the spec names the variants
LATEST, STABLE, TESTING). -/
inductive RecommendationType where
  | LATEST
  | STABLE
  | TESTING
deriving DecidableEq, Repr

/-- Modelled from the spec: a State is a partial or complete resolved stack
with a running score plus ordered collections of dependencies and
justification records (state.py is not part of the sources).  Only the
score is read by the annealing predictor. -/
structure State where
  score : ℝ
  resolved_dependencies : List (String × String × String) := []
  unresolved_dependencies : List (String × String × String) := []
  justification : List (String × String) := []

/-- Modelled from the spec: a Beam is an ordered container of states kept
sorted descending by score, with rank access; rank 0 is the best state and
top returns it (beam.py is not part of the sources).  Out-of-range access
fails, modelled by Option. -/
structure Beam where
  states : List State

/-- Number of states currently held in the beam. -/
def Beam.size (b : Beam) : ℕ := b.states.length

/-- Rank access: the state at the given rank, none when out of bounds. -/
def Beam.get (b : Beam) (idx : ℕ) : Option State := b.states[idx]?

/-- The highest-rated state: the state at rank 0; none on an empty beam. -/
def Beam.top (b : Beam) : Option State := b.states[0]?

/-- Modelled from the spec: the run-wide Context with iteration counter,
iteration/product limit, count of accepted final states and the
recommendation type (context.py is not part of the sources). -/
structure Context where
  iteration : ℕ
  limit : ℕ
  accepted_final_states_count : ℕ
  recommendation_type : RecommendationType

/-- The adaptive simulated annealing predictor state: the flag inherited
from the Predictor base (modelled from the spec: history is kept only when
history-tracking is enabled), the temperature history log and the current
temperature (annealing.py lines 44-53). -/
structure AdaptiveSimulatedAnnealing where
  keep_history : Bool := false
  temperature_history : List (ℝ × Bool × ℝ × ℕ) := []
  temperature : ℝ := 0.0

namespace AdaptiveSimulatedAnnealing

noncomputable section

/-- Exponential temperature function (annealing.py lines 55-73):
k = count / limit, temperature = t0 * 0.95 ** k.  The iteration argument is
only logged by the source. -/
def _exp (iteration : ℕ) (t0 : ℝ) (count : ℕ) (limit : ℕ) : ℝ :=
  let k : ℝ := (count : ℝ) / (limit : ℝ)
  t0 * (0.95 : ℝ) ^ k

/-- Acceptance probability of a neighbour state (annealing.py lines 75-96):
1.0 when the neighbour scores strictly better, 0.0 on the defensive
non-positive temperature branch, otherwise the Metropolis factor
exp((neighbour - top) / temperature). -/
def _compute_acceptance_probability (top_score : ℝ) (neighbour_score : ℝ)
    (temperature : ℝ) : ℝ :=
  if neighbour_score > top_score then
    1.0
  else if temperature ≤ 0.0 then
    0.0
  else
    Real.exp ((neighbour_score - top_score) / temperature)

/-- Everything a call of run can touch: the state it returns, the predictor
after the call, and the context and beam objects after the call (the source
only reads them, so the embedding threads them through explicitly to state
the frame property). -/
structure RunOutcome where
  returned : State
  predictor : AdaptiveSimulatedAnnealing
  context : Context
  beam : Beam

/-- One call of AdaptiveSimulatedAnnealing.run (annealing.py lines 98-147).
idxDraw models the random.randrange(1, beam.size) draw consumed when the
beam holds more than one state; uDraw models the random.uniform(0.0, 1.0)
draw.  Accessor failures on an empty beam are modelled by none.  The Bool
stored in the history log models the source's identity check
to_expand_state is beam.top() by whether the neighbour branch was taken. -/
def run (self : AdaptiveSimulatedAnnealing) (context : Context) (beam : Beam)
    (idxDraw : ℕ) (uDraw : ℝ) : Option RunOutcome :=
  if context.recommendation_type = RecommendationType.LATEST then
    -- If we have latest recommendations, try to expand the most recent version, always.
    (beam.get 0).map fun state =>
      { returned := state, predictor := self, context := context, beam := beam }
  else
    let temperature := _exp context.iteration self.temperature
      context.accepted_final_states_count context.limit
    -- Expand highest promising by default; pick a random state otherwise.
    let probable_state_idx := if 1 < beam.size then idxDraw else 0
    beam.top.bind fun to_expand_state =>
      (beam.get probable_state_idx).map fun probable_state =>
        let acceptance_probability := _compute_acceptance_probability
          to_expand_state.score probable_state.score temperature
        let explore : Prop :=
          probable_state_idx ≠ 0 ∧ acceptance_probability ≥ uDraw
        let chosen := if explore then probable_state else to_expand_state
        let history :=
          if self.keep_history then
            self.temperature_history ++
              [(temperature, decide ¬explore, acceptance_probability,
                context.accepted_final_states_count)]
          else
            self.temperature_history
        { returned := chosen,
          predictor :=
            { self with temperature := temperature,
                        temperature_history := history },
          context := context, beam := beam }

/-- Initialization before the actual annealing run (annealing.py lines
149-152): reset the history and seed the temperature from the limit. -/
def pre_run (self : AdaptiveSimulatedAnnealing) (context : Context) :
    AdaptiveSimulatedAnnealing :=
  { self with temperature_history := [], temperature := (context.limit : ℝ) }

/-- The temperature held by the predictor after one call of run with the
given context: unchanged on the LATEST short-circuit, otherwise updated by
the exponential cooling schedule. -/
def nextTemp (t : ℝ) (c : Context) : ℝ :=
  if c.recommendation_type = RecommendationType.LATEST then t
  else _exp c.iteration t c.accepted_final_states_count c.limit

/-- The temperature after a sequence of run calls with the given contexts,
starting from temperature t. -/
def tempAfter (t : ℝ) (calls : List Context) : ℝ :=
  calls.foldl nextTemp t

/-- A whole sequence of run calls: each call feeds the predictor produced by
the previous one; the list collects every returned state (none where the
source would raise on an empty beam). -/
def runSeq (self : AdaptiveSimulatedAnnealing)
    (calls : List (Context × Beam × ℕ × ℝ)) :
    List (Option State) × AdaptiveSimulatedAnnealing :=
  match calls with
  | [] => ([], self)
  | c :: rest =>
    match self.run c.1 c.2.1 c.2.2.1 c.2.2.2 with
    | some out =>
      let tail := out.predictor.runSeq rest
      (some out.returned :: tail.1, tail.2)
    | none =>
      let tail := self.runSeq rest
      (none :: tail.1, tail.2)

/-- The outcome a non-LATEST run call constructs once the top lookup and
the neighbour lookup have succeeded with states A and B; spelled out for
use in proofs about run. -/
def runResult (self : AdaptiveSimulatedAnnealing) (context : Context)
    (beam : Beam) (idxDraw : ℕ) (uDraw : ℝ) (A B : State) : RunOutcome :=
  let temperature := _exp context.iteration self.temperature
    context.accepted_final_states_count context.limit
  let probable_state_idx := if 1 < beam.size then idxDraw else 0
  let acceptance_probability := _compute_acceptance_probability
    A.score B.score temperature
  let explore : Prop := probable_state_idx ≠ 0 ∧ acceptance_probability ≥ uDraw
  { returned := if explore then B else A,
    predictor :=
      { self with
          temperature := temperature,
          temperature_history :=
            if self.keep_history then
              self.temperature_history ++
                [(temperature, decide ¬explore, acceptance_probability,
                  context.accepted_final_states_count)]
            else
              self.temperature_history },
    context := context, beam := beam }

end

end AdaptiveSimulatedAnnealing

open AdaptiveSimulatedAnnealing

/-- A non-LATEST run call whose top and neighbour lookups succeed returns
exactly the outcome spelled out by runResult. -/
theorem run_eq_runResult (p : AdaptiveSimulatedAnnealing) (ctx : Context)
    (beam : Beam) (i : ℕ) (u : ℝ) (A B : State)
    (hrt : ctx.recommendation_type ≠ RecommendationType.LATEST)
    (hA : beam.top = some A)
    (hB : beam.get (if 1 < beam.size then i else 0) = some B) :
    p.run ctx beam i u = some (runResult p ctx beam i u A B) := by
  simp only [AdaptiveSimulatedAnnealing.run, runResult, if_neg hrt, hA, hB,
    Option.some_bind, Option.map_some']

/-- Modelled from the spec: a package version record as consumed by a
pipeline step (the thoth.python dependency is not part of the sources);
the dropout step ignores it. -/
structure PackageVersion where
  name : String
  version : String

/-- Modelled from the spec: configuration of the dropout step; the source
stores it as the dictionary with the single key probability. -/
structure DropoutConfiguration where
  probability : ℝ

/-- Outcome of a pipeline step run: either a normal return value or the
NotAcceptable signal discarding the whole state (exceptions.py is not part
of the sources; the spec describes NotAcceptable as discard-the-state). -/
inductive StepResult (α : Type) where
  | ok (value : α)
  | notAcceptable
deriving DecidableEq

namespace DropoutStep

/-- Default configuration of the dropout step (dropout.py line 48). -/
def CONFIGURATION_DEFAULT : DropoutConfiguration := { probability := 0.9 }

noncomputable section

/-- DropoutStep.run (dropout.py lines 55-62): raise NotAcceptable when the
random.random() draw is at least the configured probability, otherwise
return None (no score delta, no justification).  draw models the
random.random() value. -/
def run (configuration : DropoutConfiguration) (state : State)
    (package_version : PackageVersion) (draw : ℝ) :
    StepResult (Option (Option ℝ × Option (List (List (String × String))))) :=
  if draw ≥ configuration.probability then
    StepResult.notAcceptable
  else
    StepResult.ok none

end

end DropoutStep

noncomputable section

/-- A state with the given score and no further payload, used to build
concrete beams in instance checks. -/
def demoState (x : ℝ) : State := { score := x }

/-- A predictor with history keeping disabled and temperature 100. -/
def pDemo : AdaptiveSimulatedAnnealing := { temperature := 100.0 }

/-- A context asking for LATEST recommendations. -/
def ctxLatest : Context :=
  { iteration := 0, limit := 10, accepted_final_states_count := 0,
    recommendation_type := RecommendationType.LATEST }

/-- A context asking for STABLE recommendations with limit 100 and 50
accepted final states. -/
def ctxStable : Context :=
  { iteration := 0, limit := 100, accepted_final_states_count := 50,
    recommendation_type := RecommendationType.STABLE }

/-- A beam holding exactly one state. -/
def beamOne : Beam := { states := [demoState 5.0] }

/-- A beam holding two states, sorted descending by score. -/
def beamTwo : Beam := { states := [demoState 5.0, demoState 3.0] }

end

/-- C1: the acceptance probability is 1.0 when the neighbour scores strictly
better, 0.0 on a non-positive temperature, and exp((B - A) / T) otherwise;
in particular (10, 12, 5) gives 1, (10, 8, 5) gives exp(-0.4) and
(10, 8, 0) gives 0. -/
theorem acceptance_probability_formula :
    (∀ A B T : ℝ,
      AdaptiveSimulatedAnnealing._compute_acceptance_probability A B T =
        if B > A then 1.0 else if T ≤ 0.0 then 0.0
        else Real.exp ((B - A) / T)) ∧
    AdaptiveSimulatedAnnealing._compute_acceptance_probability 10.0 12.0 5.0
      = 1.0 ∧
    AdaptiveSimulatedAnnealing._compute_acceptance_probability 10.0 8.0 5.0
      = Real.exp (-0.4) ∧
    AdaptiveSimulatedAnnealing._compute_acceptance_probability 10.0 8.0 0.0
      = 0.0 := by
  refine ⟨fun A B T => rfl, ?_, ?_, ?_⟩
  · norm_num [AdaptiveSimulatedAnnealing._compute_acceptance_probability]
  · norm_num [AdaptiveSimulatedAnnealing._compute_acceptance_probability]
  · norm_num [AdaptiveSimulatedAnnealing._compute_acceptance_probability]

/-- C7: pre_run resets the temperature history to the empty list and seeds
the temperature from the context limit, whatever the prior internal
state. -/
theorem pre_run_resets_state :
    ∀ (p : AdaptiveSimulatedAnnealing) (c : Context),
      (p.pre_run c).temperature_history = [] ∧
      (p.pre_run c).temperature = (c.limit : ℝ) :=
  fun _ _ => ⟨rfl, rfl⟩

/-- C10: DropoutStep.run raises NotAcceptable exactly when the uniform draw
is at least the configured probability, and returns None otherwise; the
default probability is 0.9, so the measure of discarding draws within the
unit interval is 0.1: the setting is a keep probability. -/
theorem dropout_run_spec :
    (∀ (cfg : DropoutConfiguration) (s : State) (pv : PackageVersion)
        (draw : ℝ),
      (DropoutStep.run cfg s pv draw = StepResult.notAcceptable ↔
        draw ≥ cfg.probability) ∧
      (DropoutStep.run cfg s pv draw = StepResult.ok none ↔
        draw < cfg.probability)) ∧
    DropoutStep.CONFIGURATION_DEFAULT.probability = 0.9 ∧
    (∀ (s : State) (pv : PackageVersion),
      MeasureTheory.volume
          {u : ℝ | u ∈ Set.Ico (0 : ℝ) 1 ∧
            DropoutStep.run DropoutStep.CONFIGURATION_DEFAULT s pv u =
              StepResult.notAcceptable}
        = ENNReal.ofReal 0.1) := by
  have hrun : ∀ (cfg : DropoutConfiguration) (s : State)
      (pv : PackageVersion) (draw : ℝ),
      (DropoutStep.run cfg s pv draw = StepResult.notAcceptable ↔
        draw ≥ cfg.probability) ∧
      (DropoutStep.run cfg s pv draw = StepResult.ok none ↔
        draw < cfg.probability) := by
    intro cfg s pv draw
    constructor
    · constructor
      · intro h
        by_contra hge
        rw [DropoutStep.run, if_neg hge] at h
        exact StepResult.noConfusion h
      · intro h
        rw [DropoutStep.run, if_pos h]
    · constructor
      · intro h
        by_contra hlt
        push_neg at hlt
        rw [DropoutStep.run, if_pos hlt] at h
        exact StepResult.noConfusion h
      · intro h
        rw [DropoutStep.run, if_neg (not_le.mpr h)]
  refine ⟨hrun, rfl, ?_⟩
  intro s pv
  have hset : {u : ℝ | u ∈ Set.Ico (0 : ℝ) 1 ∧
      DropoutStep.run DropoutStep.CONFIGURATION_DEFAULT s pv u =
        StepResult.notAcceptable} = Set.Ico (0.9 : ℝ) 1 := by
    ext u
    simp only [Set.mem_setOf_eq, Set.mem_Ico, (hrun _ s pv u).1]
    constructor
    · rintro ⟨⟨_, hu1⟩, hge⟩
      exact ⟨hge, hu1⟩
    · rintro ⟨h9, hu1⟩
      have h09 : (0.9 : ℝ) ≥ 0 := by norm_num
      exact ⟨⟨le_trans h09 h9, hu1⟩, h9⟩
  rw [hset, Real.volume_Ico]
  norm_num

/-- C3: on a LATEST recommendation type, run returns the state at rank 0 of
any non-empty beam, for every temperature and every pair of random draws,
and leaves the predictor (in particular its temperature) untouched. -/
theorem run_latest_short_circuit :
    ∀ (p : AdaptiveSimulatedAnnealing) (ctx : Context) (beam : Beam)
      (i : ℕ) (u : ℝ),
      ctx.recommendation_type = RecommendationType.LATEST →
      0 < beam.size →
      ∃ s, beam.get 0 = some s ∧
        p.run ctx beam i u =
          some { returned := s, predictor := p, context := ctx,
                 beam := beam } := by
  intro p ctx beam i u hrt hne
  obtain ⟨s, hs⟩ : ∃ s, beam.get 0 = some s :=
    ⟨_, List.getElem?_eq_getElem hne⟩
  refine ⟨s, hs, ?_⟩
  simp only [AdaptiveSimulatedAnnealing.run, if_pos hrt, hs,
    Option.map_some']

/-- C3 witness: on the LATEST context and a one-state beam the short
circuit fires. -/
theorem run_latest_short_circuit_witness :
    ∃ s, beamOne.get 0 = some s ∧
      pDemo.run ctxLatest beamOne 0 0 =
        some { returned := s, predictor := pDemo, context := ctxLatest,
               beam := beamOne } :=
  run_latest_short_circuit pDemo ctxLatest beamOne 0 0 rfl (by decide)

/-- C5: with a single-state beam and a non-LATEST recommendation type, run
returns that single state for every temperature and all random draws: the
neighbour rank defaults to 0, so the exploration branch is never taken. -/
theorem run_single_state :
    ∀ (p : AdaptiveSimulatedAnnealing) (ctx : Context) (beam : Beam)
      (i : ℕ) (u : ℝ) (s : State),
      ctx.recommendation_type ≠ RecommendationType.LATEST →
      beam.states = [s] →
      (p.run ctx beam i u).map RunOutcome.returned = some s := by
  intro p ctx beam i u s hrt hb
  simp only [AdaptiveSimulatedAnnealing.run, if_neg hrt, Beam.size,
    Beam.top, Beam.get, hb, List.length_cons, List.length_nil]
  norm_num

/-- C5 witness: the one-state beam is returned under a STABLE context. -/
theorem run_single_state_witness :
    (pDemo.run ctxStable beamOne 1 (3 / 4)).map RunOutcome.returned =
      some (demoState 5.0) :=
  run_single_state pDemo ctxStable beamOne 1 (3 / 4) (demoState 5.0)
    (by decide) rfl

/-- C2: on a non-empty beam and a non-LATEST recommendation type, run picks
the neighbour at the drawn rank (rank 0 when the beam has one state),
returns it exactly when its rank is nonzero and the acceptance probability
computed at the freshly cooled temperature is at least the uniform draw,
and returns the top state in every other case. -/
theorem run_neighbour_acceptance :
    ∀ (p : AdaptiveSimulatedAnnealing) (ctx : Context) (beam : Beam)
      (i : ℕ) (u : ℝ),
      ctx.recommendation_type ≠ RecommendationType.LATEST →
      0 < beam.size →
      (1 < beam.size → 1 ≤ i ∧ i < beam.size) →
      ∃ A B out,
        beam.top = some A ∧
        beam.get (if 1 < beam.size then i else 0) = some B ∧
        p.run ctx beam i u = some out ∧
        out.returned =
          (if (if 1 < beam.size then i else 0) ≠ 0 ∧
              AdaptiveSimulatedAnnealing._compute_acceptance_probability
                A.score B.score
                (AdaptiveSimulatedAnnealing._exp ctx.iteration p.temperature
                  ctx.accepted_final_states_count ctx.limit) ≥ u
           then B else A) := by
  intro p ctx beam i u hrt hne hi
  have hlt : (if 1 < beam.size then i else 0) < beam.states.length := by
    split
    · next h => exact (hi h).2
    · exact hne
  obtain ⟨A, hA⟩ : ∃ A, beam.top = some A :=
    ⟨_, List.getElem?_eq_getElem hne⟩
  obtain ⟨B, hB⟩ : ∃ B, beam.get (if 1 < beam.size then i else 0) = some B :=
    ⟨_, List.getElem?_eq_getElem hlt⟩
  exact ⟨A, B, runResult p ctx beam i u A B, hA, hB,
    run_eq_runResult p ctx beam i u A B hrt hA hB, rfl⟩

/-- C2 witness: on a two-state beam under a STABLE context with neighbour
rank 1 and uniform draw one half, run behaves as the acceptance rule
dictates. -/
theorem run_neighbour_acceptance_witness :
    ∃ A B out,
      beamTwo.top = some A ∧
      beamTwo.get (if 1 < beamTwo.size then 1 else 0) = some B ∧
      pDemo.run ctxStable beamTwo 1 (1 / 2) = some out ∧
      out.returned =
        (if (if 1 < beamTwo.size then 1 else 0) ≠ 0 ∧
            AdaptiveSimulatedAnnealing._compute_acceptance_probability
              A.score B.score
              (AdaptiveSimulatedAnnealing._exp ctxStable.iteration
                pDemo.temperature ctxStable.accepted_final_states_count
                ctxStable.limit) ≥ (1 / 2 : ℝ)
         then B else A) :=
  run_neighbour_acceptance pDemo ctxStable beamTwo 1 (1 / 2) (by decide)
    (by decide) (fun _ => ⟨Nat.le_refl 1, by decide⟩)

/-- Any successful run call falls in one of two shapes: the LATEST short
circuit returning the rank-0 state with the predictor untouched, or the
annealing path returning the runResult outcome built from the top state and
the neighbour at the drawn rank. -/
theorem run_some_shape (p : AdaptiveSimulatedAnnealing) (ctx : Context)
    (beam : Beam) (i : ℕ) (u : ℝ) (out : RunOutcome)
    (hrun : p.run ctx beam i u = some out) :
    (ctx.recommendation_type = RecommendationType.LATEST ∧
      ∃ s, beam.get 0 = some s ∧
        out = { returned := s, predictor := p, context := ctx,
                beam := beam }) ∨
    (ctx.recommendation_type ≠ RecommendationType.LATEST ∧
      ∃ A B, beam.top = some A ∧
        beam.get (if 1 < beam.size then i else 0) = some B ∧
        out = runResult p ctx beam i u A B) := by
  by_cases hrt : ctx.recommendation_type = RecommendationType.LATEST
  · left
    refine ⟨hrt, ?_⟩
    simp only [AdaptiveSimulatedAnnealing.run, if_pos hrt] at hrun
    cases hg : beam.get 0 with
    | none => rw [hg] at hrun; exact absurd hrun (by simp)
    | some s =>
      rw [hg, Option.map_some'] at hrun
      exact ⟨s, rfl, (Option.some.inj hrun).symm⟩
  · right
    refine ⟨hrt, ?_⟩
    simp only [AdaptiveSimulatedAnnealing.run, if_neg hrt] at hrun
    cases hA : beam.top with
    | none => rw [hA] at hrun; exact absurd hrun (by simp)
    | some A =>
      rw [hA, Option.some_bind] at hrun
      cases hB : beam.get (if 1 < beam.size then i else 0) with
      | none => rw [hB] at hrun; exact absurd hrun (by simp)
      | some B =>
        rw [hB, Option.map_some'] at hrun
        exact ⟨A, B, rfl, rfl, (Option.some.inj hrun).symm⟩

/-- The concrete run call used by instance checks: a STABLE context over the
one-state beam evaluates to the corresponding runResult outcome. -/
theorem runStableOne :
    pDemo.run ctxStable beamOne 0 (1 / 2) =
      some (runResult pDemo ctxStable beamOne 0 (1 / 2) (demoState 5.0)
        (demoState 5.0)) :=
  run_eq_runResult pDemo ctxStable beamOne 0 (1 / 2) _ _ (by decide)
    (by simp [Beam.top, beamOne]) (by simp [Beam.get, Beam.size, beamOne])

/-- C4: every successful non-LATEST run call sets the predictor temperature
to the previous temperature times 0.95 to the power accepted count over
limit; with previous temperature 100, accepted count 50 and limit 100 the
new temperature is 100 times 0.95 to the power one half. -/
theorem run_cooling_schedule :
    (∀ (p : AdaptiveSimulatedAnnealing) (ctx : Context) (beam : Beam)
        (i : ℕ) (u : ℝ) (out : RunOutcome),
      ctx.recommendation_type ≠ RecommendationType.LATEST →
      p.run ctx beam i u = some out →
      out.predictor.temperature =
        p.temperature * (0.95 : ℝ) ^
          ((ctx.accepted_final_states_count : ℝ) / (ctx.limit : ℝ))) ∧
    AdaptiveSimulatedAnnealing._exp 0 100 50 100 =
      100 * (0.95 : ℝ) ^ ((1 : ℝ) / 2) := by
  constructor
  · intro p ctx beam i u out hrt hrun
    rcases run_some_shape p ctx beam i u out hrun with
      ⟨h, _⟩ | ⟨_, A, B, _, _, hout⟩
    · exact absurd h hrt
    · rw [hout]
      rfl
  · show (100 : ℝ) * (0.95 : ℝ) ^ ((50 : ℝ) / (100 : ℝ)) = _
    norm_num

/-- C4 witness: the concrete STABLE call on the one-state beam cools the
temperature by the schedule with accepted count 50 and limit 100. -/
theorem run_cooling_schedule_witness :
    (runResult pDemo ctxStable beamOne 0 (1 / 2) (demoState 5.0)
        (demoState 5.0)).predictor.temperature =
      pDemo.temperature * (0.95 : ℝ) ^
        ((ctxStable.accepted_final_states_count : ℝ) /
          (ctxStable.limit : ℝ)) :=
  run_cooling_schedule.1 pDemo ctxStable beamOne 0 (1 / 2) _ (by decide)
    runStableOne

/-- C6: run is deterministic given a fixed random source: two run-call
sequences from the same predictor state fed the same contexts, beams and
random draws return the same states throughout. -/
theorem runSeq_deterministic :
    ∀ (p : AdaptiveSimulatedAnnealing)
      (calls1 calls2 : List (Context × Beam × ℕ × ℝ)),
      calls1 = calls2 → p.runSeq calls1 = p.runSeq calls2 := by
  intro p c1 c2 h
  rw [h]

/-- C6 witness: the concrete one-call sequence agrees with itself. -/
theorem runSeq_deterministic_witness :
    pDemo.runSeq [(ctxStable, beamOne, 0, 1 / 2)] =
      pDemo.runSeq [(ctxStable, beamOne, 0, 1 / 2)] :=
  runSeq_deterministic pDemo _ _ rfl

/-- C9: a run call never changes the context or the beam; the predictor it
returns differs from the input predictor at most in its temperature and its
temperature history, and the history is untouched when history keeping is
disabled. -/
theorem run_frame :
    ∀ (p : AdaptiveSimulatedAnnealing) (ctx : Context) (beam : Beam)
      (i : ℕ) (u : ℝ) (out : RunOutcome),
      p.run ctx beam i u = some out →
      out.context = ctx ∧ out.beam = beam ∧
      out.predictor.keep_history = p.keep_history ∧
      (p.keep_history = false →
        out.predictor.temperature_history = p.temperature_history) ∧
      ∃ t h', out.predictor =
        { keep_history := p.keep_history, temperature_history := h',
          temperature := t } := by
  intro p ctx beam i u out hrun
  rcases run_some_shape p ctx beam i u out hrun with
    ⟨_, s, _, hout⟩ | ⟨_, A, B, _, _, hout⟩
  · subst hout
    exact ⟨rfl, rfl, rfl, fun _ => rfl,
      p.temperature, p.temperature_history, rfl⟩
  · subst hout
    refine ⟨rfl, rfl, rfl, ?_, _, _, rfl⟩
    intro hk
    simp [runResult, hk]

/-- C9 witness: the concrete STABLE call on the one-state beam leaves the
context, the beam and the history of a history-less predictor unchanged. -/
theorem run_frame_witness :
    (runResult pDemo ctxStable beamOne 0 (1 / 2) (demoState 5.0)
        (demoState 5.0)).context = ctxStable ∧
    (runResult pDemo ctxStable beamOne 0 (1 / 2) (demoState 5.0)
        (demoState 5.0)).beam = beamOne ∧
    (runResult pDemo ctxStable beamOne 0 (1 / 2) (demoState 5.0)
        (demoState 5.0)).predictor.keep_history = pDemo.keep_history ∧
    (pDemo.keep_history = false →
      (runResult pDemo ctxStable beamOne 0 (1 / 2) (demoState 5.0)
        (demoState 5.0)).predictor.temperature_history =
        pDemo.temperature_history) ∧
    ∃ t h', (runResult pDemo ctxStable beamOne 0 (1 / 2) (demoState 5.0)
        (demoState 5.0)).predictor =
      { keep_history := pDemo.keep_history, temperature_history := h',
        temperature := t } :=
  run_frame pDemo ctxStable beamOne 0 (1 / 2) _ runStableOne

/-- The exponential cooling step keeps a positive temperature positive. -/
theorem exp_temperature_pos (i : ℕ) {t : ℝ} (ht : 0 < t) (c l : ℕ) :
    0 < AdaptiveSimulatedAnnealing._exp i t c l :=
  mul_pos ht (Real.rpow_pos_of_pos (by norm_num) _)

/-- The exponential cooling step never increases a nonnegative
temperature. -/
theorem exp_temperature_le (i : ℕ) {t : ℝ} (ht : 0 ≤ t) (c l : ℕ) :
    AdaptiveSimulatedAnnealing._exp i t c l ≤ t := by
  have hk : (0 : ℝ) ≤ (c : ℝ) / (l : ℝ) :=
    div_nonneg (Nat.cast_nonneg c) (Nat.cast_nonneg l)
  have h1 : (0.95 : ℝ) ^ ((c : ℝ) / (l : ℝ)) ≤ 1 :=
    Real.rpow_le_one (by norm_num) (by norm_num) hk
  calc AdaptiveSimulatedAnnealing._exp i t c l
      = t * (0.95 : ℝ) ^ ((c : ℝ) / (l : ℝ)) := rfl
    _ ≤ t * 1 := mul_le_mul_of_nonneg_left h1 ht
    _ = t := mul_one t

/-- One run call keeps a positive temperature positive. -/
theorem nextTemp_pos {t : ℝ} (ht : 0 < t) (c : Context) :
    0 < nextTemp t c := by
  simp only [AdaptiveSimulatedAnnealing.nextTemp]
  split
  · exact ht
  · exact exp_temperature_pos _ ht _ _

/-- One run call never increases a nonnegative temperature. -/
theorem nextTemp_le {t : ℝ} (ht : 0 ≤ t) (c : Context) : nextTemp t c ≤ t := by
  simp only [AdaptiveSimulatedAnnealing.nextTemp]
  split
  · exact le_refl t
  · exact exp_temperature_le _ ht _ _

/-- Any sequence of run calls keeps a positive temperature positive. -/
theorem tempAfter_pos :
    ∀ (calls : List Context) {t : ℝ}, 0 < t → 0 < tempAfter t calls := by
  intro calls
  induction calls with
  | nil => intro t ht; exact ht
  | cons c cs ih =>
    intro t ht
    simp only [AdaptiveSimulatedAnnealing.tempAfter, List.foldl_cons]
    exact ih (nextTemp_pos ht c)

/-- C8: the temperature after any successful run call is nextTemp of the
previous one; pre_run seeds it positive from a positive limit; it stays
strictly positive and never increases along any sequence of calls with
positive limits, so the defensive non-positive temperature branch of the
acceptance computation never fires under exact real arithmetic. -/
theorem temperature_cooling_invariant :
    (∀ (p : AdaptiveSimulatedAnnealing) (ctx : Context) (beam : Beam)
        (i : ℕ) (u : ℝ) (out : RunOutcome),
      p.run ctx beam i u = some out →
      out.predictor.temperature = nextTemp p.temperature ctx) ∧
    (∀ (p : AdaptiveSimulatedAnnealing) (c0 : Context), 0 < c0.limit →
      0 < (p.pre_run c0).temperature) ∧
    (∀ (t : ℝ) (calls : List Context), 0 < t →
      (∀ c ∈ calls, 0 < c.limit) → 0 < tempAfter t calls) ∧
    (∀ (t : ℝ) (calls : List Context) (c : Context), 0 < t →
      (∀ c' ∈ calls, 0 < c'.limit) → 0 < c.limit →
      tempAfter t (calls ++ [c]) ≤ tempAfter t calls) ∧
    (∀ (t : ℝ) (calls : List Context) (c : Context), 0 < t →
      0 < nextTemp (tempAfter t calls) c) := by
  refine ⟨?_, ?_, ?_, ?_, ?_⟩
  · intro p ctx beam i u out hrun
    rcases run_some_shape p ctx beam i u out hrun with
      ⟨hrt, s, _, hout⟩ | ⟨hrt, A, B, _, _, hout⟩
    · subst hout
      simp [AdaptiveSimulatedAnnealing.nextTemp, hrt]
    · subst hout
      simp [runResult, AdaptiveSimulatedAnnealing.nextTemp, hrt]
  · intro p c0 hl
    have : (0 : ℝ) < (c0.limit : ℝ) := by exact_mod_cast hl
    exact this
  · intro t calls ht _
    exact tempAfter_pos calls ht
  · intro t calls c ht _ _
    have hpos : 0 < tempAfter t calls := tempAfter_pos calls ht
    calc tempAfter t (calls ++ [c])
        = nextTemp (tempAfter t calls) c := by
          simp [AdaptiveSimulatedAnnealing.tempAfter, List.foldl_append]
      _ ≤ tempAfter t calls := nextTemp_le (le_of_lt hpos) c
  · intro t calls c ht
    exact nextTemp_pos (tempAfter_pos calls ht) c

/-- C8 witness: with initial temperature 100 and the STABLE context of
limit 100, the cooled temperature stays positive and never increases. -/
theorem temperature_cooling_invariant_witness :
    (runResult pDemo ctxStable beamOne 0 (1 / 2) (demoState 5.0)
        (demoState 5.0)).predictor.temperature =
      nextTemp pDemo.temperature ctxStable ∧
    0 < (pDemo.pre_run ctxStable).temperature ∧
    0 < tempAfter 100 [ctxStable] ∧
    tempAfter 100 ([ctxStable] ++ [ctxStable]) ≤ tempAfter 100 [ctxStable] ∧
    0 < nextTemp (tempAfter 100 [ctxStable]) ctxStable :=
  ⟨temperature_cooling_invariant.1 pDemo ctxStable beamOne 0 (1 / 2) _
      runStableOne,
   temperature_cooling_invariant.2.1 pDemo ctxStable (by decide),
   temperature_cooling_invariant.2.2.1 100 [ctxStable] (by norm_num)
     (by intro c hc; rw [List.mem_singleton] at hc; subst hc; decide),
   temperature_cooling_invariant.2.2.2.1 100 [ctxStable] ctxStable
     (by norm_num)
     (by intro c hc; rw [List.mem_singleton] at hc; subst hc; decide)
     (by decide),
   temperature_cooling_invariant.2.2.2.2 100 [ctxStable] ctxStable
     (by norm_num)⟩

end ThothAdviser
